import Mathlib

/-!
Verification development for the pet-input-server capture-to-broadcast
pipeline (src/main.rs).

The Rust program translates raw OS input events (rdev) into canonical
`Action` records, throttles mouse moves, publishes the records to a tokio
broadcast channel, and runs one delivery-session loop per WebSocket
subscriber.  This file is a shallow embedding of those parts:

* wall-clock instants are modelled as `Nat` milliseconds (the only time
  operation the code performs is `last_move.elapsed() >= 16ms`, and
  `Instant` is monotone, so the stored instant never exceeds "now");
* the `f64` mouse coordinates are carried through the translator untouched
  (never inspected, compared or combined), so they are modelled as `Int`
  pairs — any inhabited type would do;
* the static `KEY_MAP` HashMap is embedded as its lookup function: each
  `m.insert(k, v)` line becomes one match arm (all inserted keys are
  distinct, so insertion order is immaterial), every other key yields
  `none`;
* the global mutexed throttle state becomes explicit state passing;
* a delivery session (`handle_connection`) becomes a step function over the
  outcomes of `broadcast_rx.recv()` — `ok`, `lagged n`
  (tokio `RecvError::Lagged(n)`, the gap indicator) and `closed`
  (`RecvError::Closed`) — paired with whether the WebSocket write attempted
  at that iteration succeeds; JSON serialization of an `Action` is total
  and injective, so sessions are modelled as emitting the `Action` values
  they write.
-/

namespace Pet

/-- Raw platform key identifiers — the `rdev::Key` enum (rdev 0.5),
`Unknown` carrying the raw platform virtual-key code. -/
inductive Key where
  | Alt | AltGr | Backspace | CapsLock | ControlLeft | ControlRight
  | Delete | DownArrow | End | Escape
  | F1 | F10 | F11 | F12 | F2 | F3 | F4 | F5 | F6 | F7 | F8 | F9
  | Home | LeftArrow | MetaLeft | MetaRight | PageDown | PageUp
  | Return | RightArrow | ShiftLeft | ShiftRight | Space | Tab | UpArrow
  | PrintScreen | ScrollLock | Pause | NumLock | BackQuote
  | Num1 | Num2 | Num3 | Num4 | Num5 | Num6 | Num7 | Num8 | Num9 | Num0
  | Minus | Equal
  | KeyQ | KeyW | KeyE | KeyR | KeyT | KeyY | KeyU | KeyI | KeyO | KeyP
  | LeftBracket | RightBracket
  | KeyA | KeyS | KeyD | KeyF | KeyG | KeyH | KeyJ | KeyK | KeyL
  | SemiColon | Quote | BackSlash | IntlBackslash
  | KeyZ | KeyX | KeyC | KeyV | KeyB | KeyN | KeyM
  | Comma | Dot | Slash | Insert
  | KpReturn | KpMinus | KpPlus | KpMultiply | KpDivide
  | Kp0 | Kp1 | Kp2 | Kp3 | Kp4 | Kp5 | Kp6 | Kp7 | Kp8 | Kp9
  | KpDelete | Function
  | Unknown (code : Nat)

/-- Raw mouse buttons — the `rdev::Button` enum, `Unknown` carrying the raw
numeric button code. -/
inductive Button where
  | Left | Right | Middle
  | Unknown (code : Nat)
  deriving DecidableEq, Repr

/-- Raw event classes — the `rdev::EventType` enum.  The five handled
classes plus `Wheel`, the only other class rdev delivers. -/
inductive EventType where
  | MouseMove (x y : Int)
  | ButtonPress (button : Button)
  | ButtonRelease (button : Button)
  | KeyPress (key : Key)
  | KeyRelease (key : Key)
  | Wheel (deltaX deltaY : Int)

/-- Coordinate pair carried by a `MouseMove` action (struct `Coords`). -/
structure Coords where
  x : Int
  y : Int
  deriving DecidableEq, Repr

/-- Untagged value of an action: either a symbolic token or a coordinate
pair (enum `ActionValue`). -/
inductive ActionValue where
  | str (s : String)
  | coords (c : Coords)
  deriving DecidableEq, Repr

/-- Canonical action record (struct `Action`). -/
structure Action where
  kind : String
  value : ActionValue
  deriving DecidableEq, Repr

/-- Tests whether an action value is the coordinate member of the union. -/
def is_coords : ActionValue → Bool
  | ActionValue.coords _ => true
  | ActionValue.str _ => false

/-- Embeds the static `KEY_MAP` HashMap (main.rs lines 195-281) as its
lookup function: one arm per `m.insert(k, v)` line, in source order; keys
never inserted yield `none`. -/
def KEY_MAP : Key → Option String
  | Key.Space => some "Space"
  | Key.Alt => some "Alt"
  | Key.AltGr => some "Alt"
  | Key.ControlLeft => some "Control"
  | Key.ControlRight => some "Control"
  | Key.ShiftLeft => some "Shift"
  | Key.ShiftRight => some "Shift"
  | Key.MetaLeft => some "Meta"
  | Key.MetaRight => some "Meta"
  | Key.Escape => some "Escape"
  | Key.F1 => some "F1"
  | Key.F2 => some "F2"
  | Key.F3 => some "F3"
  | Key.F4 => some "F4"
  | Key.F5 => some "F5"
  | Key.F6 => some "F6"
  | Key.F7 => some "F7"
  | Key.F8 => some "F8"
  | Key.F9 => some "F9"
  | Key.F10 => some "F10"
  | Key.F11 => some "F11"
  | Key.F12 => some "F12"
  | Key.Tab => some "Tab"
  | Key.Return => some "Return"
  | Key.Backspace => some "Backspace"
  | Key.CapsLock => some "CapsLock"
  | Key.Insert => some "Insert"
  | Key.Delete => some "Delete"
  | Key.Home => some "Home"
  | Key.End => some "End"
  | Key.PageUp => some "PageUp"
  | Key.PageDown => some "PageDown"
  | Key.UpArrow => some "UpArrow"
  | Key.DownArrow => some "DownArrow"
  | Key.LeftArrow => some "LeftArrow"
  | Key.RightArrow => some "RightArrow"
  | Key.KeyQ => some "KeyQ"
  | Key.KeyW => some "KeyW"
  | Key.KeyE => some "KeyE"
  | Key.KeyR => some "KeyR"
  | Key.KeyT => some "KeyT"
  | Key.KeyY => some "KeyY"
  | Key.KeyU => some "KeyU"
  | Key.KeyI => some "KeyI"
  | Key.KeyO => some "KeyO"
  | Key.KeyP => some "KeyP"
  | Key.KeyA => some "KeyA"
  | Key.KeyS => some "KeyS"
  | Key.KeyD => some "KeyD"
  | Key.KeyF => some "KeyF"
  | Key.KeyG => some "KeyG"
  | Key.KeyH => some "KeyH"
  | Key.KeyJ => some "KeyJ"
  | Key.KeyK => some "KeyK"
  | Key.KeyL => some "KeyL"
  | Key.KeyZ => some "KeyZ"
  | Key.KeyX => some "KeyX"
  | Key.KeyC => some "KeyC"
  | Key.KeyV => some "KeyV"
  | Key.KeyB => some "KeyB"
  | Key.KeyN => some "KeyN"
  | Key.KeyM => some "KeyM"
  | Key.Num1 => some "Num1"
  | Key.Num2 => some "Num2"
  | Key.Num3 => some "Num3"
  | Key.Num4 => some "Num4"
  | Key.Num5 => some "Num5"
  | Key.Num6 => some "Num6"
  | Key.Num7 => some "Num7"
  | Key.Num8 => some "Num8"
  | Key.Num9 => some "Num9"
  | Key.Num0 => some "Num0"
  | Key.Kp0 => some "Num0"
  | Key.Kp1 => some "Num1"
  | Key.Kp2 => some "Num2"
  | Key.Kp3 => some "Num3"
  | Key.Kp4 => some "Num4"
  | Key.Kp5 => some "Num5"
  | Key.Kp6 => some "Num6"
  | Key.Kp7 => some "Num7"
  | Key.Kp8 => some "Num8"
  | Key.Kp9 => some "Num9"
  | _ => none

/-- Fallback table of `map_key` (main.rs lines 297-309): the fixed raw
virtual-key codes for punctuation keys, in source order. -/
def raw_code_fallback (code : Nat) : Option String :=
  match code with
  | 188 => some ","
  | 190 => some "."
  | 191 => some "/"
  | 186 => some ";"
  | 222 => some "\x27"
  | 219 => some "["
  | 221 => some "]"
  | 220 => some "\\"
  | 189 => some "-"
  | 187 => some "="
  | _ => none

/-- Translates a raw key to the protocol token (fn `map_key`, main.rs lines
284-313): the `KEY_MAP` table is consulted first; on no match, `Unknown`
keys fall through to the fixed table of raw virtual-key codes for
punctuation; everything else yields `none`. -/
def map_key (key : Key) : Option String :=
  match KEY_MAP key with
  | some mapped => some mapped
  | none =>
    match key with
    | Key.Unknown code => raw_code_fallback code
    | _ => none

/-- Translates a raw button to the protocol token (fn `map_button`, main.rs
lines 182-191). -/
def map_button : Button → String
  | Button.Left => "Mouse1"
  | Button.Right => "Mouse2"
  | Button.Middle => "Mouse3"
  | Button.Unknown code => "Mouse" ++ toString code

/-- Throttle interval for mouse moves: `MOUSE_MOVE_THROTTLE`, 16 ms. -/
def MOUSE_MOVE_THROTTLE : Nat := 16

/-- Translation part of `event_callback` (main.rs lines 63-100): given the
current time `now`, the stored last-accepted-move instant `lastMove`
(`LAST_MOUSE_MOVE`, with `lastMove ≤ now` since `Instant` is monotone) and
a raw event, produce the optional `Action` together with the new throttle
state.  The guard `lastMove + MOUSE_MOVE_THROTTLE ≤ now` renders the check
`last_move.elapsed() >= MOUSE_MOVE_THROTTLE` of the source. -/
def event_translate (now lastMove : Nat) (et : EventType) :
    Option Action × Nat :=
  match et with
  | EventType.MouseMove x y =>
      if lastMove + MOUSE_MOVE_THROTTLE ≤ now then
        (some (Action.mk "MouseMove" (ActionValue.coords (Coords.mk x y))), now)
      else
        (none, lastMove)
  | EventType.ButtonPress button =>
      (some (Action.mk "MousePress" (ActionValue.str (map_button button))), lastMove)
  | EventType.ButtonRelease button =>
      (some (Action.mk "MouseRelease" (ActionValue.str (map_button button))), lastMove)
  | EventType.KeyPress key =>
      ((map_key key).map fun val => Action.mk "KeyboardPress" (ActionValue.str val),
       lastMove)
  | EventType.KeyRelease key =>
      ((map_key key).map fun val => Action.mk "KeyboardRelease" (ActionValue.str val),
       lastMove)
  | EventType.Wheel _ _ => (none, lastMove)

/-- Capacity passed to `broadcast::channel::<Action>(1024)`. -/
def CHANNEL_CAPACITY : Nat := 1024

/-- State of the tokio broadcast channel visible to the sender: the retained
history and the number of live receivers. -/
structure Channel where
  buffer : List Action
  receivers : Nat
  deriving DecidableEq, Repr

/-- Models `broadcast::Sender::send`: with zero receivers it stores nothing
and reports an error (`SendError`), otherwise it appends, evicting the
oldest retained entries beyond the capacity, and reports success. -/
def broadcast_send (ch : Channel) (a : Action) : Channel × Bool :=
  if ch.receivers = 0 then
    (ch, false)
  else
    (Channel.mk ((ch.buffer ++ [a]).drop ((ch.buffer.length + 1) - CHANNEL_CAPACITY))
       ch.receivers,
     true)

/-- The hot-path callback `event_callback` (main.rs lines 61-107): translate
the raw event (mutating the throttle state), and if an `Action` was
produced, send it to the broadcast channel, discarding the send result
(`let _ = broadcast_tx.send(act)`). Returns the new throttle state and the
new channel state. -/
def event_callback (now lastMove : Nat) (et : EventType) (ch : Channel) :
    Nat × Channel :=
  match event_translate now lastMove et with
  | (some act, lm2) => (lm2, (broadcast_send ch act).1)
  | (none, lm2) => (lm2, ch)

/-- Outcome of one `broadcast_rx.recv().await` in a delivery session:
an action, the gap indicator `RecvError::Lagged(n)` (the retained history
advanced `n` items past the read position of the session), or
`RecvError::Closed`. -/
inductive RecvResult where
  | ok (a : Action)
  | lagged (missed : Nat)
  | closed
  deriving DecidableEq, Repr

/-- Delivery-session state, per the session state machine: `Active` after a
successful handshake, `Closed` once the loop has ended. -/
inductive SessionState where
  | Active
  | Closed
  deriving DecidableEq, Repr

/-- One iteration of the `handle_connection` loop (main.rs lines 160-173):
`while let Ok(action) = broadcast_rx.recv().await` binds only the `Ok`
outcome — any `Err` (lagged gap or closed channel) falls out of the loop.
On `Ok`, the serialized action is written; `writeOk` tells whether that
`ws_sender.send` succeeds, and on failure the loop breaks.  Returns the
action written to the transport at this iteration (if any) and the next
session state. -/
def session_step : SessionState → RecvResult → Bool → Option Action × SessionState
  | SessionState.Closed, _, _ => (none, SessionState.Closed)
  | SessionState.Active, RecvResult.ok a, true => (some a, SessionState.Active)
  | SessionState.Active, RecvResult.ok a, false => (some a, SessionState.Closed)
  | SessionState.Active, RecvResult.lagged _, _ => (none, SessionState.Closed)
  | SessionState.Active, RecvResult.closed, _ => (none, SessionState.Closed)

/-- Runs a delivery session over a finite prefix of recv outcomes, each
paired with whether a write attempted at that iteration would succeed;
returns the actions written to the subscriber transport, in order. -/
def session_run : SessionState → List (RecvResult × Bool) → List Action
  | _, [] => []
  | s, (r, w) :: rest =>
    match session_step s r w with
    | (some a, s2) => a :: session_run s2 rest
    | (none, s2) => session_run s2 rest

/-- The whole of `handle_connection` (main.rs lines 146-176): if the
`accept_async` handshake fails the task returns before the loop; otherwise
the session loop runs from the `Active` state. -/
def handle_connection (handshakeOk : Bool)
    (trace : List (RecvResult × Bool)) : List Action :=
  if handshakeOk then session_run SessionState.Active trace else []

/-- Condition of claim C8: the raw event belongs to one of the five
translated classes. -/
def is_translated_class : EventType → Bool
  | EventType.MouseMove _ _ => true
  | EventType.ButtonPress _ => true
  | EventType.ButtonRelease _ => true
  | EventType.KeyPress _ => true
  | EventType.KeyRelease _ => true
  | EventType.Wheel _ _ => false

/-! Helper lemmas, shared by several claim proofs. -/

/-- A session in the `Closed` state never writes anything again, whatever
its subscription still offers. -/
theorem session_run_closed (trace : List (RecvResult × Bool)) :
    session_run SessionState.Closed trace = [] := by
  induction trace with
  | nil => rfl
  | cons p rest ih =>
      obtain ⟨r, w⟩ := p
      simp [session_run, session_step, ih]

/-- A key matched by neither tier — absent from `KEY_MAP` and not a raw
`Unknown` code — translates to nothing. -/
theorem map_key_eq_none (k : Key) (h1 : KEY_MAP k = none)
    (h2 : ∀ c, k ≠ Key.Unknown c) : map_key k = none := by
  unfold map_key
  rw [h1]
  cases k with
  | Unknown c => exact absurd rfl (h2 c)
  | _ => rfl

/-! Claim theorems. -/

/-- C2: a raw `MouseMove` at time `now` with stored last-accepted timestamp
`lastMove` (a past instant, `Instant` being monotone) is emitted exactly
when at least 16 ms have elapsed; on emission the action is `MouseMove`
carrying `(x, y)` unmodified and the stored timestamp becomes `now`; on
suppression nothing is emitted and the stored timestamp is unchanged. -/
theorem mouse_move_throttle (now lastMove : Nat) (x y : Int)
    (hmono : lastMove ≤ now) :
    (MOUSE_MOVE_THROTTLE ≤ now - lastMove →
        event_translate now lastMove (EventType.MouseMove x y)
          = (some (Action.mk "MouseMove" (ActionValue.coords (Coords.mk x y))), now))
    ∧ (now - lastMove < MOUSE_MOVE_THROTTLE →
        event_translate now lastMove (EventType.MouseMove x y)
          = (none, lastMove)) := by
  constructor
  · intro h
    have hg : lastMove + MOUSE_MOVE_THROTTLE ≤ now := by
      unfold MOUSE_MOVE_THROTTLE at *
      omega
    simp [event_translate, hg]
  · intro h
    have hg : ¬ (lastMove + MOUSE_MOVE_THROTTLE ≤ now) := by
      unfold MOUSE_MOVE_THROTTLE at *
      omega
    simp [event_translate, hg]

/-- Witness for C2 at `now = 20`, `lastMove = 0`, coordinates `(12, 22)`. -/
theorem mouse_move_throttle_witness :
    (MOUSE_MOVE_THROTTLE ≤ 20 - 0 →
        event_translate 20 0 (EventType.MouseMove 12 22)
          = (some (Action.mk "MouseMove" (ActionValue.coords (Coords.mk 12 22))), 20))
    ∧ (20 - 0 < MOUSE_MOVE_THROTTLE →
        event_translate 20 0 (EventType.MouseMove 12 22) = (none, 0)) :=
  mouse_move_throttle 20 0 12 22 (by decide)

/-- C3: keys resolve through the exact `KEY_MAP` tier first and the raw-code
fallback only when that tier has no match; left/right modifier variants
normalize to one token (`Control`, `Shift`); a key in neither tier — whether
a named key absent from the table or an unlisted raw code — yields no
token. -/
theorem key_two_tier :
    (∀ k v, KEY_MAP k = some v → map_key k = some v)
    ∧ map_key Key.ControlLeft = some "Control"
    ∧ map_key Key.ControlRight = some "Control"
    ∧ map_key Key.ShiftLeft = some "Shift"
    ∧ map_key Key.ShiftRight = some "Shift"
    ∧ (∀ k, KEY_MAP k = none → (∀ c, k ≠ Key.Unknown c) → map_key k = none)
    ∧ map_key Key.PrintScreen = none
    ∧ map_key (Key.Unknown 300) = none := by
  refine ⟨?_, rfl, rfl, rfl, rfl, map_key_eq_none, rfl, rfl⟩
  intro k v h
  unfold map_key
  rw [h]

/-- Witness for C3: tier-1 resolution applied to the space bar. -/
theorem key_two_tier_witness : map_key Key.Space = some "Space" :=
  key_two_tier.1 Key.Space "Space" rfl

/-- C4: button presses and releases always emit exactly one action —
`MousePress`/`MouseRelease` with the token of the button — with `Left`,
`Right`, `Middle` mapped to the fixed names `Mouse1`, `Mouse2`, `Mouse3`,
and any other physical button mapped to a name embedding its raw numeric
code. -/
theorem button_always_emits :
    (∀ now lastMove b,
        event_translate now lastMove (EventType.ButtonPress b)
          = (some (Action.mk "MousePress" (ActionValue.str (map_button b))), lastMove))
    ∧ (∀ now lastMove b,
        event_translate now lastMove (EventType.ButtonRelease b)
          = (some (Action.mk "MouseRelease" (ActionValue.str (map_button b))), lastMove))
    ∧ map_button Button.Left = "Mouse1"
    ∧ map_button Button.Right = "Mouse2"
    ∧ map_button Button.Middle = "Mouse3"
    ∧ (∀ c, map_button (Button.Unknown c) = "Mouse" ++ toString c) := by
  refine ⟨?_, ?_, rfl, rfl, rfl, ?_⟩ <;> intros <;> rfl

/-- C5: every action the translator produces has one of the five protocol
kinds, and its value is a coordinate pair exactly when the kind is
`MouseMove` (a string token for all other kinds). -/
theorem translator_wire_shape (now lastMove : Nat) (et : EventType) (a : Action)
    (h : (event_translate now lastMove et).1 = some a) :
    a.kind ∈ ["MouseMove", "MousePress", "MouseRelease",
              "KeyboardPress", "KeyboardRelease"]
    ∧ (is_coords a.value = true ↔ a.kind = "MouseMove") := by
  cases et with
  | MouseMove x y =>
      by_cases hg : lastMove + MOUSE_MOVE_THROTTLE ≤ now
      · simp [event_translate, hg] at h
        rw [← h]
        exact ⟨by simp, by simp [is_coords]⟩
      · simp [event_translate, hg] at h
  | ButtonPress b =>
      simp [event_translate] at h
      rw [← h]
      refine ⟨by simp, ?_⟩
      simp [is_coords]
  | ButtonRelease b =>
      simp [event_translate] at h
      rw [← h]
      refine ⟨by simp, ?_⟩
      simp [is_coords]
  | KeyPress k =>
      cases hk : map_key k with
      | none => simp [event_translate, hk] at h
      | some v =>
          simp [event_translate, hk] at h
          rw [← h]
          refine ⟨by simp, ?_⟩
          simp [is_coords]
  | KeyRelease k =>
      cases hk : map_key k with
      | none => simp [event_translate, hk] at h
      | some v =>
          simp [event_translate, hk] at h
          rw [← h]
          refine ⟨by simp, ?_⟩
          simp [is_coords]
  | Wheel dx dy => simp [event_translate] at h

/-- Witness for C5: the action produced for a raw `KeyPress(KeyA)`. -/
theorem translator_wire_shape_witness :
    (Action.mk "KeyboardPress" (ActionValue.str "KeyA")).kind
      ∈ ["MouseMove", "MousePress", "MouseRelease",
         "KeyboardPress", "KeyboardRelease"]
    ∧ (is_coords (Action.mk "KeyboardPress" (ActionValue.str "KeyA")).value = true
        ↔ (Action.mk "KeyboardPress" (ActionValue.str "KeyA")).kind = "MouseMove") :=
  translator_wire_shape 0 0 (EventType.KeyPress Key.KeyA)
    (Action.mk "KeyboardPress" (ActionValue.str "KeyA")) rfl

/-- C6: with zero subscribers the hot-path callback is a silent no-op on the
channel — it completes normally, the channel is unchanged — and the
discarded send result makes its behaviour (the throttle-state evolution)
identical to the case of any subscriber count. -/
theorem zero_subscriber_noop (now lastMove : Nat) (et : EventType)
    (buf : List Action) :
    (event_callback now lastMove et (Channel.mk buf 0)).2 = Channel.mk buf 0
    ∧ ∀ n, (event_callback now lastMove et (Channel.mk buf 0)).1
        = (event_callback now lastMove et (Channel.mk buf n)).1 := by
  rcases h : event_translate now lastMove et with ⟨act, lm2⟩
  cases act with
  | none => exact ⟨by simp [event_callback, h], fun n => by simp [event_callback, h]⟩
  | some a =>
      refine ⟨?_, fun n => ?_⟩ <;> simp [event_callback, h, broadcast_send]

/-- C7: a failed handshake or the first failed transport write ends the
delivery session: the failing write is the last one ever attempted, and the
`Closed` state is terminal — every later step stays `Closed` and writes
nothing, whatever the subscription still offers. -/
theorem write_failure_terminates :
    (∀ r w, session_step SessionState.Closed r w = (none, SessionState.Closed))
    ∧ (∀ a trace,
        session_run SessionState.Active ((RecvResult.ok a, false) :: trace) = [a])
    ∧ (∀ trace, session_run SessionState.Closed trace = [])
    ∧ (∀ trace, handle_connection false trace = []) := by
  refine ⟨fun r w => rfl, fun a trace => ?_, session_run_closed, fun trace => rfl⟩
  simp [session_run, session_step, session_run_closed]

/-- C8: raw events outside the five translated classes (the wheel events)
produce no action and leave the throttle state unchanged. -/
theorem other_classes_ignored (now lastMove : Nat) (et : EventType)
    (h : is_translated_class et = false) :
    event_translate now lastMove et = (none, lastMove) := by
  cases et <;> simp_all [is_translated_class, event_translate]

/-- Witness for C8: a wheel event at `now = 5` with stored timestamp 0. -/
theorem other_classes_ignored_witness :
    event_translate 5 0 (EventType.Wheel 3 4) = (none, 0) :=
  other_classes_ignored 5 0 (EventType.Wheel 3 4) rfl

/-- C9: the key table aliases beyond left/right normalization — every
numpad digit `Kp0`…`Kp9` resolves to the same token as the corresponding
top-row digit `Num0`…`Num9`, and `AltGr` resolves to the same token `Alt`
as `Alt` — so the translated stream is identical for the two keys of each
pair. -/
theorem numpad_altgr_alias :
    (map_key Key.Kp0 = some "Num0" ∧ map_key Key.Num0 = some "Num0")
    ∧ (map_key Key.Kp1 = some "Num1" ∧ map_key Key.Num1 = some "Num1")
    ∧ (map_key Key.Kp2 = some "Num2" ∧ map_key Key.Num2 = some "Num2")
    ∧ (map_key Key.Kp3 = some "Num3" ∧ map_key Key.Num3 = some "Num3")
    ∧ (map_key Key.Kp4 = some "Num4" ∧ map_key Key.Num4 = some "Num4")
    ∧ (map_key Key.Kp5 = some "Num5" ∧ map_key Key.Num5 = some "Num5")
    ∧ (map_key Key.Kp6 = some "Num6" ∧ map_key Key.Num6 = some "Num6")
    ∧ (map_key Key.Kp7 = some "Num7" ∧ map_key Key.Num7 = some "Num7")
    ∧ (map_key Key.Kp8 = some "Num8" ∧ map_key Key.Num8 = some "Num8")
    ∧ (map_key Key.Kp9 = some "Num9" ∧ map_key Key.Num9 = some "Num9")
    ∧ (map_key Key.AltGr = some "Alt" ∧ map_key Key.Alt = some "Alt")
    ∧ (∀ now lastMove,
        event_translate now lastMove (EventType.KeyPress Key.Kp7)
          = event_translate now lastMove (EventType.KeyPress Key.Num7)) := by
  exact ⟨⟨rfl, rfl⟩, ⟨rfl, rfl⟩, ⟨rfl, rfl⟩, ⟨rfl, rfl⟩, ⟨rfl, rfl⟩, ⟨rfl, rfl⟩,
    ⟨rfl, rfl⟩, ⟨rfl, rfl⟩, ⟨rfl, rfl⟩, ⟨rfl, rfl⟩, ⟨rfl, rfl⟩,
    fun now lastMove => rfl⟩

/-- C10: the raw-code fallback resolves exactly the ten codes 186…191 and
219…222 to the listed punctuation tokens; every other raw code, and every
named key absent from `KEY_MAP`, translates to nothing. -/
theorem fallback_table_exact :
    (map_key (Key.Unknown 186) = some ";"
      ∧ map_key (Key.Unknown 187) = some "="
      ∧ map_key (Key.Unknown 188) = some ","
      ∧ map_key (Key.Unknown 189) = some "-"
      ∧ map_key (Key.Unknown 190) = some "."
      ∧ map_key (Key.Unknown 191) = some "/"
      ∧ map_key (Key.Unknown 219) = some "["
      ∧ map_key (Key.Unknown 220) = some "\\"
      ∧ map_key (Key.Unknown 221) = some "]"
      ∧ map_key (Key.Unknown 222) = some "\x27")
    ∧ (∀ c : Nat,
        c ∉ ([186, 187, 188, 189, 190, 191, 219, 220, 221, 222] : List Nat)
        → map_key (Key.Unknown c) = none)
    ∧ (∀ k, KEY_MAP k = none → (∀ c, k ≠ Key.Unknown c) → map_key k = none) := by
  refine ⟨⟨rfl, rfl, rfl, rfl, rfl, rfl, rfl, rfl, rfl, rfl⟩, ?_, map_key_eq_none⟩
  intro c h
  simp only [List.mem_cons, List.not_mem_nil, or_false, not_or] at h
  have hred : map_key (Key.Unknown c) = raw_code_fallback c := rfl
  rw [hred]
  unfold raw_code_fallback
  split <;> simp_all

/-- Witness for C10: the unlisted raw code 500 resolves to nothing. -/
theorem fallback_table_exact_witness : map_key (Key.Unknown 500) = none :=
  fallback_table_exact.2.1 500 (by decide)

/-- C1: counter-evidence — the session loop is written
`while let Ok(action) = broadcast_rx.recv().await`, so the gap indicator
`Lagged` (an `Err`) exits the loop: from the `Active` state a reported gap
moves the session to `Closed`, and a subsequently available action is never
delivered, contrary to the claimed continue-past-the-gap behaviour. -/
theorem gap_terminates_session :
    session_run SessionState.Active
        [(RecvResult.lagged 3, true),
         (RecvResult.ok (Action.mk "KeyboardPress" (ActionValue.str "KeyA")), true)]
      = []
    ∧ session_step SessionState.Active (RecvResult.lagged 3) true
      = (none, SessionState.Closed) :=
  ⟨rfl, rfl⟩

end Pet
